import Mathlib

/-!
Shallow embedding of the `four` rendering runtime, for checking its
natural-language specification against the code.

Sources embedded here:
* `src/_utils.ts` — the `Compiled` resource cache and its dispose chaining;
* `src/Matrix4.ts` — column-major 4x4 matrices (`compose`, `multiply`,
  `perspective`);
* `src/Object3D.ts` — `updateMatrix` over the scene tree;
* `src/Frustum.ts` — plane extraction and the bounding-sphere `contains` test;
* `src/WebGLRenderer.ts` — the draw-order comparator in `sort`, the shader
  error path of `compile`/`render`, and the draw-call fallback in `render`;
* `src/WebGPURenderer.ts` — the `std140` uniform packer, `parseUniforms`,
  the per-mesh pipeline cache of `compile`, and the `samples` save/restore
  in `render`.

JavaScript numbers are modelled as `ℚ` except where the code takes square
roots (`Frustum.contains`), which is modelled over `ℝ`.
-/

namespace Four

/-! ### Resource cache: `Compiled` from `src/_utils.ts`

`Compiled.set(object, compiled, dispose?)` stores the handle and, when a
disposer is given, monkey-patches the object's own `dispose` method:
the patched method runs the backend disposer, restores and invokes the
previously installed `dispose`, then deletes the cache entry.

The mutable state touched by this code is: the entries of every cache
(`entries cacheId objId`), the per-disposer invocation counts (`runs`),
and the object's current `dispose` slot.  The chain of monkey-patched
closures installed on one object is represented by `DisposeProg`:
`wrapped d c o prev` is the closure created by cache `c` storing object `o`
with backend disposer `d` over the previously installed method `prev`. -/

/-- A chain of monkey-patched `dispose` closures on one object. -/
inductive DisposeProg where
  | base
  | wrapped (disposerId cacheId objId : ℕ) (prev : DisposeProg)
deriving DecidableEq

/-- The mutable state observable by `Compiled.set` and object disposal. -/
structure CacheSt where
  entries : ℕ → ℕ → Option ℕ
  runs : ℕ → ℕ
  disposeOf : DisposeProg

/-- `Compiled.set(object, compiled, dispose?)`: `super.set(object, compiled)`
followed, when a disposer is present, by wrapping `object.dispose`. -/
def cacheSet (c o h : ℕ) (disposer : Option ℕ) (s : CacheSt) : CacheSt :=
  let s1 : CacheSt :=
    { s with entries := fun ci oi => if ci = c ∧ oi = o then some h else s.entries ci oi }
  match disposer with
  | none => s1
  | some d => { s1 with disposeOf := DisposeProg.wrapped d c o s.disposeOf }

/-- One invocation of backend disposer `d` (`dispose()` in the closure). -/
def bumpRun (d : ℕ) (s : CacheSt) : CacheSt :=
  { s with runs := fun di => if di = d then s.runs di + 1 else s.runs di }

/-- Running the object's current `dispose`: the wrapped closure runs the
backend disposer, restores the previous method and invokes it
(`(object.dispose = prevDispose)()`), then deletes the cache entry
(`this.delete(object)`), in exactly that order. -/
def runDispose : DisposeProg → CacheSt → CacheSt
  | .base, s => s
  | .wrapped d c o prev, s =>
    let s1 := bumpRun d s
    let s2 := { s1 with disposeOf := prev }
    let s3 := runDispose prev s2
    { s3 with entries := fun ci oi => if ci = c ∧ oi = o then none else s3.entries ci oi }

/-- Calling `object.dispose()`. -/
def objectDispose (s : CacheSt) : CacheSt := runDispose s.disposeOf s

/-- Whether backend disposer `d` occurs anywhere in a dispose chain. -/
def DisposeProg.uses (d : ℕ) : DisposeProg → Bool
  | .base => false
  | .wrapped d2 _ _ prev => d2 == d || prev.uses d

/-- An initial state: empty caches, no disposer has run, unpatched dispose. -/
def initCacheSt : CacheSt :=
  { entries := fun _ _ => none, runs := fun _ => 0, disposeOf := .base }

/-! ### Math capability: `Matrix4` over `ℚ`

Column-major 4x4 matrix; field `mij` is array element `4*i + j`, matching
the destructuring `[m00, m01, ..., m33]` used throughout the source. -/

/-- A 4x4 matrix in column-major element order, over `ℚ`. -/
structure M4 where
  (m00 m01 m02 m03 m10 m11 m12 m13 m20 m21 m22 m23 m30 m31 m32 m33 : ℚ)
deriving DecidableEq

/-- `new Matrix4()` — the identity matrix. -/
def idM : M4 := ⟨1, 0, 0, 0, 0, 1, 0, 0, 0, 0, 1, 0, 0, 0, 0, 1⟩

/-- A three-component vector over `ℚ`. -/
structure V3Q where
  (x y z : ℚ)
deriving DecidableEq

/-- A quaternion over `ℚ`. -/
structure QuatQ where
  (x y z w : ℚ)
deriving DecidableEq

/-- `Matrix4.multiply(t)` (matrix branch): `this = this × t`. -/
def mulM (m t : M4) : M4 :=
  ⟨m.m00 * t.m00 + m.m10 * t.m01 + m.m20 * t.m02 + m.m30 * t.m03,
   m.m01 * t.m00 + m.m11 * t.m01 + m.m21 * t.m02 + m.m31 * t.m03,
   m.m02 * t.m00 + m.m12 * t.m01 + m.m22 * t.m02 + m.m32 * t.m03,
   m.m03 * t.m00 + m.m13 * t.m01 + m.m23 * t.m02 + m.m33 * t.m03,
   m.m00 * t.m10 + m.m10 * t.m11 + m.m20 * t.m12 + m.m30 * t.m13,
   m.m01 * t.m10 + m.m11 * t.m11 + m.m21 * t.m12 + m.m31 * t.m13,
   m.m02 * t.m10 + m.m12 * t.m11 + m.m22 * t.m12 + m.m32 * t.m13,
   m.m03 * t.m10 + m.m13 * t.m11 + m.m23 * t.m12 + m.m33 * t.m13,
   m.m00 * t.m20 + m.m10 * t.m21 + m.m20 * t.m22 + m.m30 * t.m23,
   m.m01 * t.m20 + m.m11 * t.m21 + m.m21 * t.m22 + m.m31 * t.m23,
   m.m02 * t.m20 + m.m12 * t.m21 + m.m22 * t.m22 + m.m32 * t.m23,
   m.m03 * t.m20 + m.m13 * t.m21 + m.m23 * t.m22 + m.m33 * t.m23,
   m.m00 * t.m30 + m.m10 * t.m31 + m.m20 * t.m32 + m.m30 * t.m33,
   m.m01 * t.m30 + m.m11 * t.m31 + m.m21 * t.m32 + m.m31 * t.m33,
   m.m02 * t.m30 + m.m12 * t.m31 + m.m22 * t.m32 + m.m32 * t.m33,
   m.m03 * t.m30 + m.m13 * t.m31 + m.m23 * t.m32 + m.m33 * t.m33⟩

/-- `Matrix4.compose(position, quaternion, scale)`. -/
def composeM (p : V3Q) (q : QuatQ) (s : V3Q) : M4 :=
  let xx := 2 * q.x * q.x
  let xy := 2 * q.y * q.x
  let xz := 2 * q.z * q.x
  let yy := 2 * q.y * q.y
  let yz := 2 * q.z * q.y
  let zz := 2 * q.z * q.z
  let wx := 2 * q.x * q.w
  let wy := 2 * q.y * q.w
  let wz := 2 * q.z * q.w
  ⟨(1 - (yy + zz)) * s.x, (xy + wz) * s.x, (xz - wy) * s.x, 0,
   (xy - wz) * s.y, (1 - (xx + zz)) * s.y, (yz + wx) * s.y, 0,
   (xz + wy) * s.z, (yz - wx) * s.z, (1 - (xx + yy)) * s.z, 0,
   p.x, p.y, p.z, 1⟩

/-! ### Scene tree: `Object3D.updateMatrix` from `src/Object3D.ts`

```
updateMatrix(): void {
  if (this.matrixAutoUpdate) {
    this.matrix.compose(this.position, this.quaternion, this.scale)
    if (this.parent) this.matrix.multiply(this.parent.matrix)
    for (const child of this.children) child.updateMatrix()
  }
}
```
The recursion into children sits inside the `matrixAutoUpdate` branch.
`updateNode` receives the (already updated) parent matrix, or `none` at the
root of the pass. -/

/-- A scene node: local transform, cached matrix, auto-update flag, children. -/
inductive Node where
  | mk (position : V3Q) (quaternion : QuatQ) (scale : V3Q) (matrix : M4)
       (matrixAutoUpdate : Bool) (children : List Node)

/-- The node's local position. -/
def Node.position : Node → V3Q
  | .mk p _ _ _ _ _ => p

/-- The node's local quaternion. -/
def Node.quaternion : Node → QuatQ
  | .mk _ q _ _ _ _ => q

/-- The node's local scale. -/
def Node.scale : Node → V3Q
  | .mk _ _ s _ _ _ => s

/-- The node's cached world matrix. -/
def Node.matrix : Node → M4
  | .mk _ _ _ m _ _ => m

/-- The node's auto-update flag. -/
def Node.matrixAutoUpdate : Node → Bool
  | .mk _ _ _ _ a _ => a

/-- The node's children. -/
def Node.children : Node → List Node
  | .mk _ _ _ _ _ c => c

mutual

/-- `Object3D.updateMatrix`, with the parent's current matrix passed down. -/
def updateNode (parent : Option M4) : Node → Node
  | .mk p q s m auto cs =>
    if auto then
      let m1 := composeM p q s
      let m2 := match parent with
        | some pm => mulM m1 pm
        | none => m1
      .mk p q s m2 auto (updateNodes (some m2) cs)
    else
      .mk p q s m auto cs

/-- `updateMatrix` mapped over a child list. -/
def updateNodes (parent : Option M4) : List Node → List Node
  | [] => []
  | n :: rest => updateNode parent n :: updateNodes parent rest

end

/-- Look a node up by its child-index path. -/
def Node.get : List ℕ → Node → Option Node
  | [], n => some n
  | i :: rest, n => (n.children[i]?).bind (Node.get rest)

/-- Whether every node from the root down to (and including) the target of
the path has `matrixAutoUpdate` set. -/
def pathAuto : List ℕ → Node → Bool
  | [], n => n.matrixAutoUpdate
  | i :: rest, n =>
    n.matrixAutoUpdate &&
      (match n.children[i]? with
       | some c => pathAuto rest c
       | none => false)

/-- The composed local matrix, multiplied by the parent's world matrix when
there is a parent: `compose(p, q, s)` then `multiply(parent.matrix)`. -/
def localWorld (parent : Option M4) (n : Node) : M4 :=
  match parent with
  | some pm => mulM (composeM n.position n.quaternion n.scale) pm
  | none => composeM n.position n.quaternion n.scale

/-- The world matrix a node at the given path should end up with after a
transform pass: its local matrix composed with its (already-updated)
parent's world matrix. -/
def specWorld : List ℕ → Option M4 → Node → Option M4
  | [], parent, n => some (localWorld parent n)
  | i :: rest, parent, n =>
    (n.children[i]?).bind (specWorld rest (some (localWorld parent n)))

/-- A frozen root (`matrixAutoUpdate = false`) whose child is auto-updating
and carries a non-trivial local translation but a stale identity matrix. -/
def childC3 : Node := .mk ⟨1, 0, 0⟩ ⟨0, 0, 0, 1⟩ ⟨1, 1, 1⟩ idM true []

/-- The frozen root holding `childC3`. -/
def rootC3 : Node := .mk ⟨0, 0, 0⟩ ⟨0, 0, 0, 1⟩ ⟨1, 1, 1⟩ idM false [childC3]

/-- An auto-updating root holding `childC3`, translated by `(0, 0, 1)`. -/
def rootAuto : Node := .mk ⟨0, 0, 1⟩ ⟨0, 0, 0, 1⟩ ⟨1, 1, 1⟩ idM true [childC3]

/-! ### Draw ordering: the comparator of `WebGLRenderer.sort`

```
renderList.sort(
  (a, b) =>
    (b.material.depthTest as number) - (a.material.depthTest as number) ||
    (!!camera &&
      this._v.set(b.matrix[12], b.matrix[13], b.matrix[14]).applyMatrix4(camera.projectionViewMatrix).z -
        this._v.set(a.matrix[12], a.matrix[13], a.matrix[14]).applyMatrix4(camera.projectionViewMatrix).z) ||
    (a.material.transparent as number) - (b.material.transparent as number),
)
```
JavaScript `x || y` on numbers falls through exactly when the left side is
`0`; a comparator result `< 0` places `a` before `b`.  `Array.prototype.sort`
is stable, and for the total preorder induced by this comparator the stable
sorted permutation is unique, so a stable insertion sort models it. -/

/-- The fields of a mesh read by the ordering comparator; `tag` stands for
object identity. -/
structure MeshS where
  depthTest : Bool
  transparent : Bool
  tx : ℚ
  ty : ℚ
  tz : ℚ
  tag : ℕ
deriving DecidableEq

/-- JavaScript number coercion of a boolean. -/
def b2q (b : Bool) : ℚ := if b then 1 else 0

/-- `Vector3.set(m[12], m[13], m[14]).applyMatrix4(pv).z`: the projected
`z` of the mesh's world translation, including the `w` divide with the
`|| 1` guard. -/
def zView (pv : M4) (m : MeshS) : ℚ :=
  let w0 := pv.m03 * m.tx + pv.m13 * m.ty + pv.m23 * m.tz + pv.m33
  let w := if w0 = 0 then 1 else w0
  (pv.m02 * m.tx + pv.m12 * m.ty + pv.m22 * m.tz + pv.m32) / w

/-- The comparator passed to `renderList.sort`. -/
def cmpMesh (hasCamera : Bool) (pv : M4) (a b : MeshS) : ℚ :=
  let c1 := b2q b.depthTest - b2q a.depthTest
  if c1 ≠ 0 then c1
  else
    let c2 := if hasCamera then zView pv b - zView pv a else 0
    if c2 ≠ 0 then c2
    else b2q a.transparent - b2q b.transparent

/-- `renderList.sort(comparator)`: the stable sort by the comparator. -/
def sortMeshes (hasCamera : Bool) (pv : M4) (l : List MeshS) : List MeshS :=
  List.insertionSort (fun a b => cmpMesh hasCamera pv a b ≤ 0) l

/-- Scenario drawable A: depth test disabled. -/
def meshA : MeshS := ⟨false, false, 0, 0, 0, 0⟩

/-- Scenario drawable B: depth tested, near (projected z = 1). -/
def meshB : MeshS := ⟨true, false, 0, 0, 1, 1⟩

/-- Scenario drawable C: depth tested, far (projected z = 10), opaque. -/
def meshC : MeshS := ⟨true, false, 0, 0, 10, 2⟩

/-- Scenario drawable D: depth tested, far (same z = 10), transparent. -/
def meshD : MeshS := ⟨true, true, 0, 0, 10, 3⟩

/-! ### Pipeline cache: `WebGPURenderer.compile`

`_pipelines` is a `Compiled<Mesh, GPURenderPipeline>` — keyed by the mesh —
and the cached pipeline is reused iff its `label` equals the serialized
state key:

```
const pipelineCacheKey = JSON.stringify([transparent, cullMode, topology,
  depthWriteEnabled, depthCompare, buffers, blending, colorAttachments, samples])
if (!pipeline || pipeline.label !== pipelineCacheKey) {
  pipeline = this.device.createRenderPipeline({ label: pipelineCacheKey, ... })
}
this._pipelines.set(mesh, pipeline)
```

Pipeline objects are identified by a fresh id drawn from a counter, which
models `createRenderPipeline` returning a new backend object. -/

/-- One entry of the `buffers` vertex-layout array. -/
structure GPUVertexLayout where
  arrayStride : ℕ
  stepMode : String
  format : String
deriving DecidableEq

/-- One component of a blend descriptor. -/
structure GPUBlendComponent where
  operation : Option String
  srcFactor : Option String
  dstFactor : Option String
deriving DecidableEq

/-- A material blend descriptor. -/
structure GPUBlendState where
  color : GPUBlendComponent
  alpha : GPUBlendComponent
deriving DecidableEq

/-- The pipeline state tuple serialized into `pipelineCacheKey`. -/
structure PipeState where
  transparent : Bool
  cullMode : String
  topology : String
  depthWriteEnabled : Bool
  depthCompare : String
  buffers : List GPUVertexLayout
  blending : Option GPUBlendState
  colorAttachments : ℕ
  samples : ℕ
deriving DecidableEq

/-- Serialized boolean. -/
def serBool (b : Bool) : String := if b then "true" else "false"

/-- Serialized string value. -/
def serStr (s : String) : String := "\"" ++ s ++ "\""

/-- Serialized optional string (`undefined` stringifies to `null`). -/
def serOptStr : Option String → String
  | none => "null"
  | some s => serStr s

/-- Serialized vertex-layout entry. -/
def serLayout (v : GPUVertexLayout) : String :=
  "(" ++ toString v.arrayStride ++ "," ++ serStr v.stepMode ++ "," ++ serStr v.format ++ ")"

/-- Serialized blend component. -/
def serBlendComponent (c : GPUBlendComponent) : String :=
  "(" ++ serOptStr c.operation ++ "," ++ serOptStr c.srcFactor ++ ","
      ++ serOptStr c.dstFactor ++ ")"

/-- Serialized blend descriptor. -/
def serBlend : Option GPUBlendState → String
  | none => "null"
  | some b => "(" ++ serBlendComponent b.color ++ "," ++ serBlendComponent b.alpha ++ ")"

/-- `JSON.stringify` of the state tuple: a deterministic value
serialization of all nine components. -/
def serializeKey (st : PipeState) : String :=
  "[" ++ serBool st.transparent ++ "," ++ serStr st.cullMode ++ ","
      ++ serStr st.topology ++ "," ++ serBool st.depthWriteEnabled ++ ","
      ++ serStr st.depthCompare ++ ","
      ++ "[" ++ String.intercalate "," (st.buffers.map serLayout) ++ "]" ++ ","
      ++ serBlend st.blending ++ "," ++ toString st.colorAttachments ++ ","
      ++ toString st.samples ++ "]"

/-- A backend pipeline object: an identity plus its `label`. -/
structure Pipeline where
  id : ℕ
  label : String
deriving DecidableEq

/-- The device state: the per-mesh pipeline cache and the fresh-id counter. -/
structure GPUState where
  pipelines : List (ℕ × Pipeline)
  nextId : ℕ

/-- The result of the pipeline portion of `compile`. -/
structure CompileOut where
  st : GPUState
  pipeline : Pipeline
  created : Bool

/-- The render-pipeline portion of `WebGPURenderer.compile` for one mesh. -/
def compilePipeline (meshId : ℕ) (ps : PipeState) (g : GPUState) : CompileOut :=
  let key := serializeKey ps
  match g.pipelines.lookup meshId with
  | some p =>
    if p.label = key then
      ⟨{ g with pipelines := (meshId, p) :: g.pipelines }, p, false⟩
    else
      ⟨⟨(meshId, ⟨g.nextId, key⟩) :: g.pipelines, g.nextId + 1⟩, ⟨g.nextId, key⟩, true⟩
  | none =>
    ⟨⟨(meshId, ⟨g.nextId, key⟩) :: g.pipelines, g.nextId + 1⟩, ⟨g.nextId, key⟩, true⟩

/-- A concrete pipeline state tuple (the `Material` defaults). -/
def pipeState0 : PipeState :=
  ⟨false, "back", "triangle-list", true, "less", [], none, 1, 4⟩

/-- An empty device state. -/
def gpu0 : GPUState := ⟨[], 0⟩

/-! ### Uniform packing: `std140` from `src/WebGPURenderer.ts`

```
const pad2 = (n) => n + (n % 2)
const pad4 = (n) => n + ((4 - (n % 4)) % 4)
```
Scalars take the next free slot; array values pad the running offset with
`pad2` (length ≤ 2) or `pad4` (length ≥ 3) and advance it by the padded
length; the total is `pad4`-aligned.  On the first call the backing buffer
is allocated at exactly that length; later calls write into the buffer that
was passed in. -/

/-- `pad2` from the source. -/
def pad2 (n : ℕ) : ℕ := n + n % 2

/-- `pad4` from the source. -/
def pad4 (n : ℕ) : ℕ := n + (4 - n % 4) % 4

/-- A uniform value: a JavaScript number, or an array value of any length
(2/3/4-vectors and 3x3/4x4 matrices). -/
inductive UniformV where
  | scalar (v : ℚ)
  | vec (vs : List ℚ)

/-- One step of the length scan in `std140` (the `!buffer` branch). -/
def sizeStep (o : ℕ) (u : UniformV) : ℕ :=
  match u with
  | .scalar _ => o + 1
  | .vec vs =>
    (if vs.length ≤ 2 then pad2 o else pad4 o) +
      (if vs.length ≤ 2 then pad2 vs.length else pad4 vs.length)

/-- The allocated buffer length: the scanned offset, `pad4`-aligned. -/
def initLen (us : List UniformV) : ℕ := pad4 (us.foldl sizeStep 0)

/-- The slot offsets at which the pack loop writes each uniform, starting
from running offset `o`. -/
def offsetsFrom (o : ℕ) : List UniformV → List ℕ
  | [] => []
  | .scalar _ :: rest => o :: offsetsFrom (o + 1) rest
  | .vec vs :: rest =>
    let p := if vs.length ≤ 2 then pad2 o else pad4 o
    p :: offsetsFrom (p + (if vs.length ≤ 2 then pad2 vs.length else pad4 vs.length)) rest

/-- The offsets of all uniforms in a pack. -/
def offsets (us : List UniformV) : List ℕ := offsetsFrom 0 us

/-- A backing buffer: identity of the allocation plus its contents. -/
structure PackBuffer where
  bufId : ℕ
  data : List ℚ
deriving DecidableEq

/-- In-place write of `vs` into `l` at index `i` (`buffer.set(value, i)`). -/
def writeAt (l : List ℚ) (i : ℕ) (vs : List ℚ) : List ℚ :=
  l.take i ++ vs ++ l.drop (i + vs.length)

/-- The pack loop of `std140`, from running offset `o`. -/
def packFrom (o : ℕ) (data : List ℚ) : List UniformV → List ℚ
  | [] => data
  | .scalar v :: rest => packFrom (o + 1) (writeAt data o [v]) rest
  | .vec vs :: rest =>
    let p := if vs.length ≤ 2 then pad2 o else pad4 o
    packFrom (p + (if vs.length ≤ 2 then pad2 vs.length else pad4 vs.length))
      (writeAt data p vs) rest

/-- `std140(uniforms, buffer?)`: allocates a zeroed buffer of `initLen`
slots (with a fresh identity) only when no buffer is passed, then packs the
values into it. -/
def std140 (us : List UniformV) (buffer : Option PackBuffer) (freshId : ℕ) : PackBuffer :=
  match buffer with
  | some b => { bufId := b.bufId, data := packFrom 0 b.data us }
  | none => { bufId := freshId, data := packFrom 0 (List.replicate (initLen us) 0) us }

/-- The spec's example uniform list: `{a: scalar, b: 2-vector, c: 4-vector}`. -/
def exampleUniforms : List UniformV :=
  [.scalar 1, .vec [2, 3], .vec [4, 5, 6, 7]]

/-! ### Uniform-set discovery: `parseUniforms`

With several shader sources, the code parses each and keeps the longest
member list:
```
const definitions = shaders.map((shader) => parseUniforms(shader))
return definitions.filter(Boolean).sort((a, b) => b.length - a.length)[0]
```
The per-stage regex parse is taken as given (each stage yields
`Option (List String)` of member names); `pickLongest` embeds the
combination step, with the stable sort modelled as above. -/

/-- The multi-shader branch of `parseUniforms`: drop failed parses, sort by
descending length (stably), take the first. -/
def pickLongest (defs : List (Option (List String))) : Option (List String) :=
  (List.insertionSort (fun a b : List String => b.length ≤ a.length)
    (defs.filterMap id)).head?

/-! ### Shader failure path: `WebGLRenderer.compile` / `render`

`compile` throws `` `${error}\n${source}` `` — the backend info log, a
newline, and the raw (not line-numbered) shader source — and `render`'s
per-drawable loop has no `try`/`catch`, so the first failing drawable
aborts the whole frame. -/

/-- The material data read by the error path: shader source and the
backend info log (`some` = compile error). -/
structure GLMaterial where
  src : String
  infoLog : Option String
deriving DecidableEq

/-- The exception `compile` throws for this material, if any. -/
def compileThrowMsg (m : GLMaterial) : Option String :=
  m.infoLog.map (fun e => e ++ "\n" ++ m.src)

/-- The per-drawable loop of `render`: compile-then-draw each mesh in
order; an exception propagates out of `render`, so nothing after the
failing mesh is drawn.  Returns the drawn meshes and the escaped error. -/
def renderPass : List GLMaterial → List GLMaterial × Option String
  | [] => ([], none)
  | m :: rest =>
    match compileThrowMsg m with
    | some e => ([], some e)
    | none =>
      let r := renderPass rest
      (m :: r.1, r.2)

/-- A material whose vertex stage fails to compile. -/
def badMat : GLMaterial := ⟨"bad source", some "ERROR: 0:1: syntax error"⟩

/-- A material that compiles fine. -/
def goodMat : GLMaterial := ⟨"good source", none⟩

/-! ### Draw-call selection: the tail of `WebGLRenderer.render`

```
const { index, position } = node.geometry.attributes
const { start, count } = node.geometry.drawRange
if (index) this.gl.drawElementsInstanced(mode, min(count, index.data.length / index.size), type, start, node.instances)
else if (position) this.gl.drawArraysInstanced(mode, start, min(count, position.data.length / position.size), node.instances)
else this.gl.drawArraysInstanced(mode, 0, 3, node.instances)
```
`drawRange.count` defaults to `Infinity`, modelled as `none`. -/

/-- The attribute data the draw call reads: element count and per-vertex
size. -/
structure AttrM where
  dataLen : ℕ
  size : ℕ
deriving DecidableEq

/-- The geometry data the draw call reads. -/
structure GeomM where
  index : Option AttrM
  position : Option AttrM
  drawStart : ℕ
  drawCount : Option ℕ
deriving DecidableEq

/-- An issued GL draw command. -/
inductive GLDraw where
  | elements (mode : String) (count : ℕ) (start : ℕ) (instances : ℕ)
  | arrays (mode : String) (first : ℕ) (count : ℕ) (instances : ℕ)
deriving DecidableEq

/-- `min(count, n)` with `count` possibly `Infinity`. -/
def minCount (c : Option ℕ) (n : ℕ) : ℕ :=
  match c with
  | none => n
  | some k => min k n

/-- The draw command issued for a mesh by `WebGLRenderer.render`. -/
def drawCommand (g : GeomM) (mode : String) (instances : ℕ) : GLDraw :=
  match g.index with
  | some ix => .elements mode (minCount g.drawCount (ix.dataLen / ix.size)) g.drawStart instances
  | none =>
    match g.position with
    | some p => .arrays mode g.drawStart (minCount g.drawCount (p.dataLen / p.size)) instances
    | none => .arrays mode 0 3 instances

/-! ### MSAA sample count save/restore: `WebGPURenderer.render`

```
const samples = this.samples
if (FBO) this.samples = 1
else if (this._msaaTexture.sampleCount !== samples) this._resizeSwapchain()
...   // pass encoded; each compile reads this.samples into its pipeline
if (FBO) this.samples = samples
```
-/

/-- The renderer state the save/restore touches. -/
structure GPUFrameState where
  samples : ℕ
  msaaSampleCount : ℕ
deriving DecidableEq

/-- The observable outcome of one `render` call: the final state, the
sample count in effect while the pass was encoded, and the sample count
each of the `meshCount` compiled pipelines saw. -/
structure RenderSamplesOut where
  final : GPUFrameState
  passSamples : ℕ
  pipelineSamples : List ℕ
deriving DecidableEq

/-- The `samples`-relevant slice of `WebGPURenderer.render`; `hasFBO` is
whether an offscreen render target is bound. -/
def renderSamples (hasFBO : Bool) (meshCount : ℕ) (st : GPUFrameState) : RenderSamplesOut :=
  let samples := st.samples
  let st1 :=
    if hasFBO then { st with samples := 1 }
    else if st.msaaSampleCount ≠ samples then { st with msaaSampleCount := st.samples }
    else st
  let passSamples := st1.samples
  let pipelineSamples := List.replicate meshCount st1.samples
  let st2 := if hasFBO then { st1 with samples := samples } else st1
  ⟨st2, passSamples, pipelineSamples⟩

/-! ### Frustum culling: `Frustum` from `src/Frustum.ts`

`Frustum.contains(mesh)` computes a bounding radius with

```
const vertices = position.data.length / position.size
let radius = 0
for (let i = 0; i < vertices; i += position.size) {
  let vertexLengthSquared = 0
  for (let vi = i; vi < i + position.size; vi++) vertexLengthSquared += position.data[vi] ** 2
  radius = max(radius, sqrt(vertexLengthSquared))
}
radius *= max(...mesh.scale)
```
— note the outer loop bound is the vertex COUNT while `i` strides through
DATA indices, so only data indices below the vertex count are visited —
then excludes the mesh iff some plane has
`plane · (matrix[12..14], 1) ≤ -radius`.  Square roots force `ℝ` here. -/

/-- A 4x4 matrix over `ℝ`, column-major element order as in `M4`. -/
structure M4R where
  (m00 m01 m02 m03 m10 m11 m12 m13 m20 m21 m22 m23 m30 m31 m32 m33 : ℝ)

/-- The identity matrix over `ℝ`. -/
def idR : M4R := ⟨1, 0, 0, 0, 0, 1, 0, 0, 0, 0, 1, 0, 0, 0, 0, 1⟩

/-- `Matrix4.multiply` over `ℝ`. -/
def mulR (m t : M4R) : M4R :=
  ⟨m.m00 * t.m00 + m.m10 * t.m01 + m.m20 * t.m02 + m.m30 * t.m03,
   m.m01 * t.m00 + m.m11 * t.m01 + m.m21 * t.m02 + m.m31 * t.m03,
   m.m02 * t.m00 + m.m12 * t.m01 + m.m22 * t.m02 + m.m32 * t.m03,
   m.m03 * t.m00 + m.m13 * t.m01 + m.m23 * t.m02 + m.m33 * t.m03,
   m.m00 * t.m10 + m.m10 * t.m11 + m.m20 * t.m12 + m.m30 * t.m13,
   m.m01 * t.m10 + m.m11 * t.m11 + m.m21 * t.m12 + m.m31 * t.m13,
   m.m02 * t.m10 + m.m12 * t.m11 + m.m22 * t.m12 + m.m32 * t.m13,
   m.m03 * t.m10 + m.m13 * t.m11 + m.m23 * t.m12 + m.m33 * t.m13,
   m.m00 * t.m20 + m.m10 * t.m21 + m.m20 * t.m22 + m.m30 * t.m23,
   m.m01 * t.m20 + m.m11 * t.m21 + m.m21 * t.m22 + m.m31 * t.m23,
   m.m02 * t.m20 + m.m12 * t.m21 + m.m22 * t.m22 + m.m32 * t.m23,
   m.m03 * t.m20 + m.m13 * t.m21 + m.m23 * t.m22 + m.m33 * t.m23,
   m.m00 * t.m30 + m.m10 * t.m31 + m.m20 * t.m32 + m.m30 * t.m33,
   m.m01 * t.m30 + m.m11 * t.m31 + m.m21 * t.m32 + m.m31 * t.m33,
   m.m02 * t.m30 + m.m12 * t.m31 + m.m22 * t.m32 + m.m32 * t.m33,
   m.m03 * t.m30 + m.m13 * t.m31 + m.m23 * t.m32 + m.m33 * t.m33⟩

/-- `Matrix4.perspective(fov, aspect, near, far)` (WebGL `[-1, 1]` form). -/
noncomputable def perspectiveR (fov aspect near far : ℝ) : M4R :=
  let fovRad := fov * (Real.pi / 180)
  let f := 1 / Real.tan (fovRad / 2)
  let depth := 1 / (near - far)
  ⟨f / aspect, 0, 0, 0,
   0, f, 0, 0,
   0, 0, (far + near) * depth, -1,
   0, 0, 2 * far * near * depth, 0⟩

/-- A clipping plane `(a, b, c, d)`. -/
structure PlaneR where
  (a b c d : ℝ)

/-- The six frustum planes, in the order the source stores them. -/
structure FrustumR where
  pleft : PlaneR
  pright : PlaneR
  ptop : PlaneR
  pbottom : PlaneR
  pnear : PlaneR
  pfar : PlaneR

/-- `Frustum.fromMatrix4(projectionViewMatrix)`. -/
def frustumFromMatrix4 (m : M4R) : FrustumR :=
  ⟨⟨m.m03 - m.m00, m.m13 - m.m10, m.m23 - m.m20, m.m33 - m.m30⟩,
   ⟨m.m03 + m.m00, m.m13 + m.m10, m.m23 + m.m20, m.m33 + m.m30⟩,
   ⟨m.m03 + m.m01, m.m13 + m.m11, m.m23 + m.m21, m.m33 + m.m31⟩,
   ⟨m.m03 - m.m01, m.m13 - m.m11, m.m23 - m.m21, m.m33 - m.m31⟩,
   ⟨m.m03 - m.m02, m.m13 - m.m12, m.m23 - m.m22, m.m33 - m.m32⟩,
   ⟨m.m03 + m.m02, m.m13 + m.m12, m.m23 + m.m22, m.m33 + m.m32⟩⟩

/-- The planes as a list, in iteration order. -/
def FrustumR.planes (f : FrustumR) : List PlaneR :=
  [f.pleft, f.pright, f.ptop, f.pbottom, f.pnear, f.pfar]

/-- The mesh data `Frustum.contains` reads: the `position` attribute, the
local `scale`, and the world matrix (only its translation is used). -/
structure MeshF where
  posData : List ℝ
  posSize : ℕ
  scaleX : ℝ
  scaleY : ℝ
  scaleZ : ℝ
  matrix : M4R

/-- The data indices the outer radius loop visits: `i = 0; i < vertices;
i += size` (for `size > 0`) — the multiples of `size` below `vertices`. -/
def vertexStarts (vertices size : ℕ) : List ℕ :=
  (List.range vertices).filter (fun i => i % size == 0)

/-- `vertexLengthSquared` for the vertex whose data starts at index `i`. -/
def vertexLengthSq (data : List ℝ) (i size : ℕ) : ℝ :=
  ((List.range size).map (fun k => data.getD (i + k) 0 ^ 2)).sum

/-- The bounding radius `Frustum.contains` computes, including the final
`radius *= max(...mesh.scale)`. -/
noncomputable def meshRadius (m : MeshF) : ℝ :=
  let vertices := m.posData.length / m.posSize
  let r := (vertexStarts vertices m.posSize).foldl
    (fun r i => max r (Real.sqrt (vertexLengthSq m.posData i m.posSize))) 0
  r * max (max m.scaleX m.scaleY) m.scaleZ

/-- Modelled from the spec: the radius the specification describes — the
maximum distance from the local origin across ALL vertices of the position
attribute (the loop striding over every data index), scaled the same way.
This is the only definition in this development not taken from the source;
it exists to exhibit where the source's loop bound diverges from it. -/
noncomputable def meshRadiusSpec (m : MeshF) : ℝ :=
  let r := (vertexStarts m.posData.length m.posSize).foldl
    (fun r i => max r (Real.sqrt (vertexLengthSq m.posData i m.posSize))) 0
  r * max (max m.scaleX m.scaleY) m.scaleZ

/-- `plane · (matrix[12], matrix[13], matrix[14], 1)`. -/
def planeDistanceAt (p : PlaneR) (m : MeshF) : ℝ :=
  p.a * m.matrix.m30 + p.b * m.matrix.m31 + p.c * m.matrix.m32 + p.d

/-- `Frustum.contains(mesh)`: true iff no plane has signed distance
`≤ -radius` at the mesh's world origin. -/
noncomputable def frustumContains (f : FrustumR) (m : MeshF) : Prop :=
  ∀ p ∈ f.planes, ¬ (planeDistanceAt p m ≤ -(meshRadius m))

/-- Modelled from the spec: the containment test with the all-vertices
radius `meshRadiusSpec` in place of the source's `meshRadius`. -/
noncomputable def frustumContainsSpec (f : FrustumR) (m : MeshF) : Prop :=
  ∀ p ∈ f.planes, ¬ (planeDistanceAt p m ≤ -(meshRadiusSpec m))

/-- A mesh exhibiting the loop-bound slip: two 3-component vertices, the
second at distance 5 from the origin; unit scale; identity world matrix. -/
def meshBad : MeshF := ⟨[0, 0, 0, 5, 0, 0], 3, 1, 1, 1, idR⟩

/-- A frustum whose first plane has signed distance `-1` at the origin and
whose other planes are degenerate (distance `0`). -/
def frustumBad : FrustumR :=
  ⟨⟨0, 0, 0, -1⟩, ⟨0, 0, 0, 0⟩, ⟨0, 0, 0, 0⟩, ⟨0, 0, 0, 0⟩, ⟨0, 0, 0, 0⟩, ⟨0, 0, 0, 0⟩⟩

/-- A unit-radius sphere sampling (the six axis points) at the world
origin with unit scale. -/
def meshSphere : MeshF :=
  ⟨[1, 0, 0, -1, 0, 0, 0, 1, 0, 0, -1, 0, 0, 0, 1, 0, 0, -1], 3, 1, 1, 1, idR⟩

/-- The default camera frustum: perspective `fov 75°, aspect 1, near 0.1,
far 1000` with an identity view matrix
(`projectionViewMatrix = projection × view`). -/
noncomputable def frustumDefault : FrustumR :=
  frustumFromMatrix4 (mulR (perspectiveR 75 1 (1 / 10) 1000) idR)

end Four

namespace Four

theorem runDispose_runs_of_not_uses (p : DisposeProg) (s : CacheSt) (d : ℕ)
    (h : p.uses d = false) : (runDispose p s).runs d = s.runs d := by
  induction p generalizing s with
  | base => rfl
  | wrapped d2 c o prev ih =>
    simp only [DisposeProg.uses, Bool.or_eq_false_iff, beq_eq_false_iff_ne] at h
    simp only [runDispose, ih _ h.2, bumpRun]
    simp [Ne.symm h.1]

theorem runDispose_disposeOf (p : DisposeProg) (s : CacheSt) (h : p ≠ .base) :
    (runDispose p s).disposeOf = .base := by
  induction p generalizing s with
  | base => exact absurd rfl h
  | wrapped d2 c o prev ih =>
    by_cases hp : prev = .base
    · subst hp; rfl
    · simpa only [runDispose] using ih _ hp

/-- C1: `get()` immediately after `set()` returns the handle that was
stored; when `set()` was given a disposer, one call to the object's
`dispose()` removes the cache entry (a later `get` finds nothing) and runs
the backend disposer exactly once, and a second `dispose()` call does not
run it again.  `hfresh`/`hzero` say the backend disposer is the fresh
closure supplied to this `set` call. -/
theorem compiled_cache_lifecycle (s : CacheSt) (c o h d : ℕ)
    (hfresh : s.disposeOf.uses d = false) (hzero : s.runs d = 0) :
    (cacheSet c o h (some d) s).entries c o = some h ∧
    (objectDispose (cacheSet c o h (some d) s)).entries c o = none ∧
    (objectDispose (cacheSet c o h (some d) s)).runs d = 1 ∧
    (objectDispose (objectDispose (cacheSet c o h (some d) s))).runs d = 1 := by
  have h1 : (cacheSet c o h (some d) s).entries c o = some h := by
    simp [cacheSet]
  have hdsp : (cacheSet c o h (some d) s).disposeOf = .wrapped d c o s.disposeOf := rfl
  have h2 : (objectDispose (cacheSet c o h (some d) s)).entries c o = none := by
    simp [objectDispose, hdsp, runDispose]
  have h3 : (objectDispose (cacheSet c o h (some d) s)).runs d = 1 := by
    show (runDispose (.wrapped d c o s.disposeOf) (cacheSet c o h (some d) s)).runs d = 1
    simp only [runDispose]
    rw [runDispose_runs_of_not_uses _ _ _ hfresh]
    simp [bumpRun, cacheSet, hzero]
  have h4 : (objectDispose (objectDispose (cacheSet c o h (some d) s))).runs d = 1 := by
    have hb : (objectDispose (cacheSet c o h (some d) s)).disposeOf = .base := by
      show (runDispose (.wrapped d c o s.disposeOf) (cacheSet c o h (some d) s)).disposeOf = .base
      exact runDispose_disposeOf _ _ (by simp)
    show (runDispose (objectDispose (cacheSet c o h (some d) s)).disposeOf
      (objectDispose (cacheSet c o h (some d) s))).runs d = 1
    rw [hb]
    exact h3
  exact ⟨h1, h2, h3, h4⟩

/-- Witness for C1 at a concrete initial state: cache 0, object 0, handle
42, backend disposer 7. -/
theorem compiled_cache_lifecycle_witness :
    (cacheSet 0 0 42 (some 7) initCacheSt).entries 0 0 = some 42 ∧
    (objectDispose (cacheSet 0 0 42 (some 7) initCacheSt)).entries 0 0 = none ∧
    (objectDispose (cacheSet 0 0 42 (some 7) initCacheSt)).runs 7 = 1 ∧
    (objectDispose (objectDispose (cacheSet 0 0 42 (some 7) initCacheSt))).runs 7 = 1 :=
  compiled_cache_lifecycle initCacheSt 0 0 42 7 rfl rfl

theorem updateNodes_getElem (l : List Node) (parent : Option M4) (i : ℕ) :
    (updateNodes parent l)[i]? = (l[i]?).map (updateNode parent) := by
  induction l generalizing i with
  | nil => simp [updateNodes]
  | cons n rest ih =>
    cases i with
    | zero => simp [updateNodes]
    | succ j => simpa [updateNodes] using ih j

/-- C3 counterexample: the claim says the auto-updating descendants of a
node whose auto-update flag is off still receive updated world matrices.
In `rootC3` the root is frozen and its child carries local translation
`(1, 0, 0)` but a stale identity matrix; after the pass the child's matrix
is still the identity, while the world matrix the claim promises —
`compose(child)` times the root's (untouched) matrix — differs from it. -/
theorem frozen_node_children_counterexample :
    (Node.get [0] (updateNode none rootC3)).map Node.matrix = some idM ∧
    mulM (composeM childC3.position childC3.quaternion childC3.scale) rootC3.matrix ≠ idM := by
  refine ⟨rfl, fun hEq => ?_⟩
  have h30 := congrArg M4.m30 hEq
  norm_num [mulM, composeM, childC3, rootC3, idM,
    Node.position, Node.quaternion, Node.scale, Node.matrix] at h30

/-- C3 (amended): after one transform pass, every node reachable from the
pass root through a chain of auto-updating nodes (the node itself
included) has world matrix `compose(position, quaternion, scale)`
multiplied by its parent's already-updated world matrix (the composed
local matrix alone at the pass root); recursion into children happens only
inside the auto-update branch, so a frozen node's whole subtree — its own
matrix and all of its descendants — is left untouched. -/
theorem updateMatrix_auto_path (path : List ℕ) (parent : Option M4) (n : Node)
    (h : pathAuto path n = true) :
    (Node.get path (updateNode parent n)).map Node.matrix = specWorld path parent n := by
  induction path generalizing parent n with
  | nil =>
    cases n with
    | mk p q s m auto cs =>
      simp only [pathAuto, Node.matrixAutoUpdate] at h
      cases parent with
      | none =>
        simp [updateNode, h, Node.get, Node.matrix, specWorld, localWorld,
          Node.position, Node.quaternion, Node.scale]
      | some pm =>
        simp [updateNode, h, Node.get, Node.matrix, specWorld, localWorld,
          Node.position, Node.quaternion, Node.scale]
  | cons i rest ih =>
    cases n with
    | mk p q s m auto cs =>
      simp only [pathAuto, Node.matrixAutoUpdate, Node.children, Bool.and_eq_true] at h
      obtain ⟨ha, hrest⟩ := h
      subst ha
      cases hcs : cs[i]? with
      | none => rw [hcs] at hrest; simp at hrest
      | some child =>
        rw [hcs] at hrest
        have hupd : updateNode parent (Node.mk p q s m true cs)
            = Node.mk p q s (localWorld parent (Node.mk p q s m true cs)) true
                (updateNodes (some (localWorld parent (Node.mk p q s m true cs))) cs) := by
          cases parent <;>
            simp [updateNode, localWorld, Node.position, Node.quaternion, Node.scale]
        rw [hupd]
        show ((updateNodes (some (localWorld parent (Node.mk p q s m true cs))) cs)[i]?.bind
            (Node.get rest)).map Node.matrix
          = (cs[i]?).bind
              (specWorld rest (some (localWorld parent (Node.mk p q s m true cs))))
        rw [updateNodes_getElem, hcs]
        simpa using ih _ _ hrest

/-- Witness for C3 (amended) along the all-auto path `[0]` of `rootAuto`. -/
theorem updateMatrix_auto_path_witness :
    (Node.get [0] (updateNode none rootAuto)).map Node.matrix
      = specWorld [0] none rootAuto :=
  updateMatrix_auto_path [0] none rootAuto (by decide)

theorem sort_scenario_eval :
    sortMeshes true idM [meshA, meshB, meshC, meshD] = [meshC, meshD, meshB, meshA] := by
  have hCD : cmpMesh true idM meshC meshD ≤ 0 := by
    norm_num [cmpMesh, zView, b2q, meshC, meshD, idM]
  have hBC : ¬ cmpMesh true idM meshB meshC ≤ 0 := by
    norm_num [cmpMesh, zView, b2q, meshB, meshC, idM]
  have hBD : ¬ cmpMesh true idM meshB meshD ≤ 0 := by
    norm_num [cmpMesh, zView, b2q, meshB, meshD, idM]
  have hAC : ¬ cmpMesh true idM meshA meshC ≤ 0 := by
    norm_num [cmpMesh, zView, b2q, meshA, meshC, idM]
  have hAD : ¬ cmpMesh true idM meshA meshD ≤ 0 := by
    norm_num [cmpMesh, zView, b2q, meshA, meshD, idM]
  have hAB : ¬ cmpMesh true idM meshA meshB ≤ 0 := by
    norm_num [cmpMesh, zView, b2q, meshA, meshB, idM]
  simp [sortMeshes, List.insertionSort, List.orderedInsert,
    hCD, hBC, hBD, hAC, hAD, hAB]

/-- C5 counterexample: with a camera present, the scenario
A (depthTest off), B (depth-tested, near), C (depth-tested, far, opaque),
D (depth-tested, far, transparent, same distance as C), traversed in the
order `[A, B, C, D]`, is NOT emitted as `[A, C, D, B]`: the comparator
`b.depthTest - a.depthTest` sorts depth-test-disabled drawables last, so
the emitted order is `[C, D, B, A]`. -/
theorem sort_scenario_counterexample :
    sortMeshes true idM [meshA, meshB, meshC, meshD] ≠ [meshA, meshC, meshD, meshB] := by
  rw [sort_scenario_eval]
  intro hEq
  have htag := congrArg (fun l => (l.map MeshS.tag)) hEq
  simp [meshA, meshB, meshC, meshD] at htag

/-- C5 (amended): the comparator orders, in strict precedence:
(a) depth-test-DISABLED drawables sort after depth-test-enabled ones
(the disabled ones are emitted last, drawn on top); (b) among drawables
with equal depth-test flags and a camera present, farther from the camera
(larger projected `z`) sorts before nearer; (c) when the projected depths
are equal, opaque sorts before transparent.  For the scenario
A (depthTest off), B (near), C (far, opaque), D (far, transparent), the
emitted order is `[C, D, B, A]`. -/
theorem sort_order_amended :
    (∀ (cam : Bool) (pv : M4) (a b : MeshS), a.depthTest = false → b.depthTest = true →
      0 < cmpMesh cam pv a b) ∧
    (∀ (pv : M4) (a b : MeshS), a.depthTest = b.depthTest → zView pv b < zView pv a →
      cmpMesh true pv a b < 0) ∧
    (∀ (pv : M4) (a b : MeshS), a.depthTest = b.depthTest → zView pv a = zView pv b →
      a.transparent = false → b.transparent = true → cmpMesh true pv a b < 0) ∧
    sortMeshes true idM [meshA, meshB, meshC, meshD] = [meshC, meshD, meshB, meshA] := by
  refine ⟨?_, ?_, ?_, sort_scenario_eval⟩
  · intro cam pv a b ha hb
    simp only [cmpMesh, ha, hb, b2q]
    norm_num
  · intro pv a b hdt hz
    have hc2 : zView pv b - zView pv a < 0 := sub_neg.mpr hz
    have hval : cmpMesh true pv a b = zView pv b - zView pv a := by
      unfold cmpMesh
      rw [hdt]
      simp [ne_of_lt hc2]
    rw [hval]
    exact hc2
  · intro pv a b hdt hz hta htb
    have hval : cmpMesh true pv a b = b2q a.transparent - b2q b.transparent := by
      unfold cmpMesh
      rw [hdt, hz]
      simp
    rw [hval, hta, htb]
    norm_num [b2q]

/-- Witness for C5 (amended), part (a), at the scenario drawables A and B. -/
theorem sort_order_amended_witness :
    0 < cmpMesh true idM meshA meshB :=
  sort_order_amended.1 true idM meshA meshB rfl rfl

/-- C2 counterexample: two distinct drawables (mesh ids 0 and 1) carrying
the very same state tuple `pipeState0`, compiled one after the other from
an empty device state, do NOT share one backend pipeline object: the
pipeline cache is keyed by the mesh, so the second compile finds no entry
and creates a second pipeline. -/
theorem pipeline_no_sharing_counterexample :
    (compilePipeline 1 pipeState0 (compilePipeline 0 pipeState0 gpu0).st).pipeline
      ≠ (compilePipeline 0 pipeState0 gpu0).pipeline := by
  intro hEq
  have hid := congrArg Pipeline.id hEq
  simp [compilePipeline, gpu0, List.lookup] at hid

/-- C2 (amended): the pipeline cache is keyed per drawable.  For a single
drawable, the compiled pipeline carries the serialized key as its label
and is stored under that drawable; a new pipeline is created exactly when
there is no cached pipeline for the drawable or the cached pipeline's
label differs from the serialized key (so recompilation happens only on a
key change, and a cached pipeline whose label matches is returned as is);
and two distinct drawables compiled from an empty device state never share
one pipeline object, even with structurally identical state tuples. -/
theorem pipeline_cache_per_mesh (g : GPUState) (meshId : ℕ) (ps : PipeState) :
    ((compilePipeline meshId ps g).pipeline.label = serializeKey ps) ∧
    (List.lookup meshId (compilePipeline meshId ps g).st.pipelines
      = some (compilePipeline meshId ps g).pipeline) ∧
    ((compilePipeline meshId ps g).created = false ↔
      (∃ q, List.lookup meshId g.pipelines = some q ∧ q.label = serializeKey ps)) ∧
    ((compilePipeline meshId ps g).created = false →
      List.lookup meshId g.pipelines = some (compilePipeline meshId ps g).pipeline) ∧
    ((compilePipeline meshId ps g).created = true →
      (compilePipeline meshId ps g).pipeline.id = g.nextId ∧
      (compilePipeline meshId ps g).st.nextId = g.nextId + 1) ∧
    (∀ (m1 m2 : ℕ) (ps1 ps2 : PipeState), m1 ≠ m2 →
      (compilePipeline m2 ps2 (compilePipeline m1 ps1 gpu0).st).pipeline
        ≠ (compilePipeline m1 ps1 gpu0).pipeline) := by
  have hshare : ∀ (m1 m2 : ℕ) (ps1 ps2 : PipeState), m1 ≠ m2 →
      (compilePipeline m2 ps2 (compilePipeline m1 ps1 gpu0).st).pipeline
        ≠ (compilePipeline m1 ps1 gpu0).pipeline := by
    intro m1 m2 ps1 ps2 hne
    have h1 : compilePipeline m1 ps1 gpu0
        = ⟨⟨[(m1, ⟨0, serializeKey ps1⟩)], 1⟩, ⟨0, serializeKey ps1⟩, true⟩ := rfl
    rw [h1]
    have hbeq : (m2 == m1) = false := beq_eq_false_iff_ne.mpr (Ne.symm hne)
    have h2 : List.lookup m2 [(m1, Pipeline.mk 0 (serializeKey ps1))] = none := by
      simp [List.lookup, hbeq]
    simp only [compilePipeline, h2]
    intro hEq
    exact absurd (congrArg Pipeline.id hEq) (by simp)
  cases hlk : List.lookup meshId g.pipelines with
  | none =>
    refine ⟨?_, ?_, ?_, ?_, ?_, hshare⟩ <;>
      simp [compilePipeline, hlk, List.lookup]
  | some p =>
    by_cases hl : p.label = serializeKey ps
    · refine ⟨?_, ?_, ?_, ?_, ?_, hshare⟩ <;>
        simp [compilePipeline, hlk, hl, List.lookup]
    · refine ⟨?_, ?_, ?_, ?_, ?_, hshare⟩ <;>
        simp [compilePipeline, hlk, hl, List.lookup]

/-- Witness for C2 (amended) at mesh id 3, state `pipeState0`, empty
device state. -/
theorem pipeline_cache_per_mesh_witness :
    (compilePipeline 3 pipeState0 gpu0).pipeline.label = serializeKey pipeState0 ∧
    (compilePipeline 3 pipeState0 gpu0).created = true :=
  ⟨(pipeline_cache_per_mesh gpu0 3 pipeState0).1, rfl⟩

theorem offsetsFrom_aligned (us : List UniformV) :
    ∀ (o i : ℕ) (vs : List ℚ) (off : ℕ),
      us[i]? = some (.vec vs) → (offsetsFrom o us)[i]? = some off →
      (vs.length ≤ 2 → off % 2 = 0) ∧ (3 ≤ vs.length → off % 4 = 0) := by
  induction us with
  | nil => intro o i vs off hu; simp at hu
  | cons u rest ih =>
    intro o i vs off hu ho
    cases i with
    | zero =>
      cases u with
      | scalar v => simp at hu
      | vec vs2 =>
        have hv : vs2 = vs := by simpa using hu
        subst hv
        have ho2 : off = (if vs2.length ≤ 2 then pad2 o else pad4 o) := by
          have := ho
          simp only [offsetsFrom, List.getElem?_cons_zero, Option.some_inj] at this
          exact this.symm
        constructor
        · intro h2
          rw [ho2, if_pos h2]
          unfold pad2
          omega
        · intro h3
          rw [ho2, if_neg (by omega)]
          unfold pad4
          omega
    | succ j =>
      cases u with
      | scalar v =>
        simp only [List.getElem?_cons_succ] at hu
        simp only [offsetsFrom, List.getElem?_cons_succ] at ho
        exact ih _ j vs off hu ho
      | vec vs2 =>
        simp only [List.getElem?_cons_succ] at hu
        simp only [offsetsFrom, List.getElem?_cons_succ] at ho
        exact ih _ j vs off hu ho

/-- C6: the packer places a scalar at the next free slot, aligns a
2-component value to a 2-slot boundary and any value of 3 or more
components to a 4-slot boundary, and rounds the total length up to a
multiple of 4; packing `{a: scalar, b: 2-vector, c: 4-vector}` places `a`
at offset 0, `b` at offset 2, `c` at offset 4 in a buffer of total length
8; and re-packing with an existing buffer writes into that same buffer
object (same allocation identity) without allocating a new one. -/
theorem std140_layout :
    (∀ us : List UniformV, initLen us % 4 = 0) ∧
    (∀ (us : List UniformV) (i : ℕ) (vs : List ℚ) (off : ℕ),
      us[i]? = some (.vec vs) → (offsets us)[i]? = some off →
      (vs.length ≤ 2 → off % 2 = 0) ∧ (3 ≤ vs.length → off % 4 = 0)) ∧
    offsets exampleUniforms = [0, 2, 4] ∧
    initLen exampleUniforms = 8 ∧
    std140 exampleUniforms none 5 = ⟨5, [1, 0, 2, 3, 4, 5, 6, 7]⟩ ∧
    (∀ (us : List UniformV) (b : PackBuffer) (f : ℕ),
      (std140 us (some b) f).bufId = b.bufId) := by
  refine ⟨?_, ?_, rfl, rfl, rfl, ?_⟩
  · intro us
    unfold initLen pad4
    omega
  · intro us i vs off hu ho
    exact offsetsFrom_aligned us 0 i vs off hu ho
  · intro us b f
    rfl

/-- Witness for C6: the 4-component value of the example is placed at
offset 4, which the theorem proves is 4-aligned. -/
theorem std140_layout_witness : 4 % 4 = 0 :=
  (std140_layout.2.1 exampleUniforms 2 [4, 5, 6, 7] 4 rfl rfl).2 (by norm_num)

/-- C7: when both the vertex and the fragment stage parse to a uniform
member list and one list is a superset of the other (the asymmetric case
the code accepts), the combination step returns one of the two lists —
the longer, more complete one — and its members are exactly the union of
the two stages' member lists. -/
theorem parseUniforms_superset_union (A B : List String)
    (hA : A.Nodup) (hB : B.Nodup) (h : A ⊆ B ∨ B ⊆ A) :
    ∃ C, pickLongest [some A, some B] = some C ∧ (C = A ∨ C = B) ∧
      ∀ x, x ∈ C ↔ (x ∈ A ∨ x ∈ B) := by
  by_cases hlen : B.length ≤ A.length
  · refine ⟨A, ?_, Or.inl rfl, ?_⟩
    · simp [pickLongest, List.insertionSort, List.orderedInsert, hlen]
    · have hBA : B ⊆ A := by
        cases h with
        | inr hBA => exact hBA
        | inl hAB =>
          have hperm : A.Perm B :=
            (List.subperm_of_subset hA hAB).perm_of_length_le hlen
          intro x hx
          exact hperm.symm.subset hx
      exact fun x => ⟨fun hx => Or.inl hx, fun hx => hx.elim id (fun hx => hBA hx)⟩
  · refine ⟨B, ?_, Or.inr rfl, ?_⟩
    · simp [pickLongest, List.insertionSort, List.orderedInsert, hlen]
    · have hAB : A ⊆ B := by
        cases h with
        | inl hAB => exact hAB
        | inr hBA =>
          exact absurd (List.subperm_of_subset hB hBA).length_le hlen
      exact fun x => ⟨fun hx => Or.inr hx, fun hx => hx.elim (fun hx => hAB hx) id⟩

/-- Witness for C7 at vertex members `["color", "time"]` and fragment
members `["color"]`. -/
theorem parseUniforms_superset_union_witness :
    ∃ C, pickLongest [some ["color", "time"], some ["color"]] = some C ∧
      (C = ["color", "time"] ∨ C = ["color"]) ∧
      ∀ x, x ∈ C ↔ (x ∈ (["color", "time"] : List String) ∨ x ∈ (["color"] : List String)) :=
  parseUniforms_superset_union ["color", "time"] ["color"]
    (by decide) (by decide) (Or.inr (by decide))

/-- C8 counterexample: the claim says a compile failure is fatal for that
drawable only and the remaining drawables of the frame are still drawn.
With the render list `[badMat, goodMat]`, the exception thrown while
compiling `badMat` escapes `render` (there is no `try`/`catch` around the
loop), so `goodMat` — a remaining drawable — is not drawn at all, and the
surfaced message is the info log and the raw source, with no line-number
annotation. -/
theorem compile_error_counterexample :
    goodMat ∉ (renderPass [badMat, goodMat]).1 ∧
    (renderPass [badMat, goodMat]).1 = [] ∧
    (renderPass [badMat, goodMat]).2
      = some ("ERROR: 0:1: syntax error" ++ "\n" ++ "bad source") := by
  refine ⟨?_, rfl, rfl⟩
  decide

/-- C8 (amended): a shader compile/link failure surfaces the backend info
log followed by the raw (not line-numbered) shader source, and it is fatal
for the whole frame: the drawables before the failing one have already
been drawn, and the failing drawable and every drawable after it are not
drawn, because the exception propagates out of `render`. -/
theorem compile_error_aborts_frame (pre : List GLMaterial) (bad : GLMaterial)
    (post : List GLMaterial) (e : String)
    (hpre : ∀ m ∈ pre, m.infoLog = none) (hbad : bad.infoLog = some e) :
    renderPass (pre ++ bad :: post) = (pre, some (e ++ "\n" ++ bad.src)) := by
  induction pre with
  | nil => simp [renderPass, compileThrowMsg, hbad]
  | cons m rest ih =>
    have hm : m.infoLog = none := hpre m (by simp)
    have hrest : ∀ x ∈ rest, x.infoLog = none := fun x hx => hpre x (by simp [hx])
    simp [renderPass, compileThrowMsg, hm, ih hrest]

/-- Witness for C8 (amended): one good drawable before the failing one. -/
theorem compile_error_aborts_frame_witness :
    renderPass ([goodMat] ++ badMat :: [])
      = ([goodMat], some ("ERROR: 0:1: syntax error" ++ "\n" ++ badMat.src)) :=
  compile_error_aborts_frame [goodMat] badMat [] "ERROR: 0:1: syntax error"
    (by decide) rfl

/-- C9: a mesh whose geometry has neither an `index` nor a `position`
attribute is still drawn: the renderer issues a non-indexed instanced draw
of exactly 3 vertices starting at 0 instead of skipping the mesh or
failing. -/
theorem draw_fallback_three_vertices (g : GeomM) (mode : String) (instances : ℕ)
    (hIndex : g.index = none) (hPos : g.position = none) :
    drawCommand g mode instances = .arrays mode 0 3 instances := by
  simp [drawCommand, hIndex, hPos]

/-- Witness for C9 at a geometry with no attributes at all. -/
theorem draw_fallback_three_vertices_witness :
    drawCommand ⟨none, none, 0, none⟩ "TRIANGLES" 2 = .arrays "TRIANGLES" 0 3 2 :=
  draw_fallback_three_vertices ⟨none, none, 0, none⟩ "TRIANGLES" 2 rfl rfl

/-- C10: when `render()` runs with an offscreen render target bound and
returns, the public `samples` field holds the same value as before the
call, even though the pass itself is encoded with a sample count of 1 —
the field is set to 1 for the duration of the pass (every pipeline
compiled during the pass reads 1) and restored before returning. -/
theorem render_samples_restored (st : GPUFrameState) (meshCount : ℕ) :
    (renderSamples true meshCount st).final.samples = st.samples ∧
    (renderSamples true meshCount st).passSamples = 1 ∧
    (∀ s ∈ (renderSamples true meshCount st).pipelineSamples, s = 1) := by
  refine ⟨rfl, rfl, ?_⟩
  intro s hs
  simpa using List.eq_of_mem_replicate hs

/-- Witness for C10 at the default sample count 4 with two meshes. -/
theorem render_samples_restored_witness :
    (renderSamples true 2 ⟨4, 4⟩).final.samples = 4 ∧
    (renderSamples true 2 ⟨4, 4⟩).passSamples = 1 :=
  ⟨(render_samples_restored ⟨4, 4⟩ 2).1, (render_samples_restored ⟨4, 4⟩ 2).2.1⟩

theorem meshRadius_meshBad : meshRadius meshBad = 0 := by
  have hshape : meshRadius meshBad
      = max 0 (Real.sqrt ((0 : ℝ) ^ 2 + ((0 : ℝ) ^ 2 + ((0 : ℝ) ^ 2 + 0))))
        * max (max 1 1) 1 := rfl
  rw [hshape]
  rw [show ((0 : ℝ) ^ 2 + ((0 : ℝ) ^ 2 + ((0 : ℝ) ^ 2 + 0))) = 0 by norm_num,
    Real.sqrt_zero]
  norm_num

theorem meshRadiusSpec_meshBad : meshRadiusSpec meshBad = 5 := by
  have hshape : meshRadiusSpec meshBad
      = max (max 0 (Real.sqrt ((0 : ℝ) ^ 2 + ((0 : ℝ) ^ 2 + ((0 : ℝ) ^ 2 + 0)))))
          (Real.sqrt ((5 : ℝ) ^ 2 + ((0 : ℝ) ^ 2 + ((0 : ℝ) ^ 2 + 0))))
        * max (max 1 1) 1 := rfl
  rw [hshape]
  rw [show ((0 : ℝ) ^ 2 + ((0 : ℝ) ^ 2 + ((0 : ℝ) ^ 2 + 0))) = 0 by norm_num,
    Real.sqrt_zero]
  rw [show ((5 : ℝ) ^ 2 + ((0 : ℝ) ^ 2 + ((0 : ℝ) ^ 2 + 0))) = 5 ^ 2 by norm_num,
    Real.sqrt_sq (by norm_num : (0 : ℝ) ≤ 5)]
  rw [max_self, max_self]
  rw [show max (0 : ℝ) 5 = 5 from max_eq_right (by norm_num)]
  norm_num

theorem meshRadius_meshSphere : meshRadius meshSphere = 1 := by
  have hshape : meshRadius meshSphere
      = max (max 0 (Real.sqrt ((1 : ℝ) ^ 2 + ((0 : ℝ) ^ 2 + ((0 : ℝ) ^ 2 + 0)))))
          (Real.sqrt (((-1 : ℝ)) ^ 2 + ((0 : ℝ) ^ 2 + ((0 : ℝ) ^ 2 + 0))))
        * max (max 1 1) 1 := rfl
  rw [hshape]
  rw [show ((1 : ℝ) ^ 2 + ((0 : ℝ) ^ 2 + ((0 : ℝ) ^ 2 + 0))) = 1 by norm_num,
    show (((-1 : ℝ)) ^ 2 + ((0 : ℝ) ^ 2 + ((0 : ℝ) ^ 2 + 0))) = 1 by norm_num,
    Real.sqrt_one]
  rw [max_self, max_self]
  rw [show max (0 : ℝ) 1 = 1 from max_eq_right (by norm_num)]
  norm_num

theorem planeDistanceAt_d (p : PlaneR) (m : MeshF) (hm : m.matrix = idR) :
    planeDistanceAt p m = p.d := by
  simp [planeDistanceAt, hm, idR]

/-- C4 (the radius loop slip): `Frustum.contains` is claimed to take the
maximum per-vertex distance across ALL vertices, but its loop strides
through data indices while bounding them by the vertex count, so it reads
only the first `⌈count/size⌉` vertices.  For `meshBad` (two 3-component
vertices, the second at distance 5) the code computes radius 0 and
`frustumBad` excludes it, while the specified all-vertices radius is 5 and
the same frustum keeps it; and the unit-radius sphere at the world origin
is included under the default perspective frustum (fov 75°, near 0.1,
far 1000), as the claim's scenario states. -/
theorem frustum_radius_bug :
    ¬ frustumContains frustumBad meshBad ∧
    frustumContainsSpec frustumBad meshBad ∧
    frustumContains frustumDefault meshSphere := by
  refine ⟨?_, ?_, ?_⟩
  · intro h
    have hp := h frustumBad.pleft (by simp [FrustumR.planes])
    apply hp
    rw [planeDistanceAt_d _ _ rfl, meshRadius_meshBad]
    show (frustumBad.pleft.d : ℝ) ≤ -0
    norm_num [frustumBad]
  · intro p hp
    rw [planeDistanceAt_d _ _ rfl, meshRadiusSpec_meshBad]
    simp only [FrustumR.planes, frustumBad, List.mem_cons, List.not_mem_nil,
      or_false] at hp
    rcases hp with h | h | h | h | h | h <;> subst h <;> norm_num
  · intro p hp
    rw [planeDistanceAt_d _ _ rfl, meshRadius_meshSphere]
    have hd : frustumDefault.pleft.d = 0 ∧ frustumDefault.pright.d = 0 ∧
        frustumDefault.ptop.d = 0 ∧ frustumDefault.pbottom.d = 0 ∧
        frustumDefault.pnear.d = 2000 / 9999 ∧
        frustumDefault.pfar.d = -(2000 / 9999) := by
      simp only [frustumDefault, frustumFromMatrix4, mulR, perspectiveR, idR]
      norm_num
    simp only [FrustumR.planes, List.mem_cons, List.not_mem_nil, or_false] at hp
    rcases hp with h | h | h | h | h | h <;> rw [h] <;>
      [rw [hd.1]; rw [hd.2.1]; rw [hd.2.2.1]; rw [hd.2.2.2.1];
        rw [hd.2.2.2.2.1]; rw [hd.2.2.2.2.2]] <;> norm_num

end Four
